import Mathlib

/-!
Verification of the bounded, cancellable execution core of
`src/submit_first_solution/mini_lib/utils.py` (functions `run_with_timeout`,
`arun`, `run`).

Shallow embedding.  A Python code fragment is abstracted by its semantic
effect: `exec(code, vars)` on a fresh empty dict either raises or produces a
namespace; the only part of the namespace the code reads is the binding of
the key `"solve"` (`vars.get("solve", lambda x: x)`).  Non-callable Python
values are modelled by `PyData`; a value bound to `solve` is a `PyVal`:
either such data or a callable, which carries its call behaviour as a Lean
function over data (inputs and outputs of a `solve` call are modelled as
data values).  Python exceptions are `PyError`; `PyError.timeoutError` marks
exceptions that are instances of `asyncio.TimeoutError` (equal to the
builtin `TimeoutError` on Python 3.11+), which the
`except asyncio.TimeoutError` clause of `arun` catches, while `PyError.exc`
covers every other `Exception`.

Timing.  The wall-clock behaviour of `arun` is modelled over an abstract
`WorkerBehavior`: the dispatched call of `run_with_timeout` on the worker
thread either terminates after `t` time units with a result or never
terminates (`diverges`, e.g. a fragment whose `solve` loops forever).  The
translation of `arun` encodes the CPython runtime semantics of the
constructs it uses, documented branch by branch on the definition.
-/

set_option linter.unusedVariables false

/-- An exception value raised by Python code.  `timeoutError` is an instance
of `asyncio.TimeoutError` (builtin `TimeoutError` on 3.11+): the class the
`except asyncio.TimeoutError` clause in `arun` catches.  `exc` is any other
`Exception`, carrying class name and message. -/
inductive PyError where
  | timeoutError : String → PyError
  | exc : String → String → PyError
deriving DecidableEq

/-- Does this exception match the `except asyncio.TimeoutError` clause? -/
def PyError.isTimeoutErr : PyError → Bool
  | PyError.timeoutError _ => true
  | PyError.exc _ _ => false

/-- A non-callable Python value: representative atoms plus an opaque
constructor for everything else. -/
inductive PyData where
  | int : Int → PyData
  | str : String → PyData
  | none : PyData
  | obj : String → PyData
deriving DecidableEq

/-- A Python value as far as the core observes one bound to `solve`:
either non-callable data or a callable whose behaviour when applied is a
result or a raised exception. -/
inductive PyVal where
  | data : PyData → PyVal
  | func : (PyData → Except PyError PyData) → PyVal

/-- Whether a Python value is callable. -/
def PyVal.isCallable : PyVal → Bool
  | PyVal.func _ => true
  | PyVal.data _ => false

/-- Calling a Python value: `f(x)`.  A callable runs its body; calling a
non-callable raises `TypeError` ("object is not callable"). -/
def PyVal.call : PyVal → PyData → Except PyError PyData
  | PyVal.func f, x => f x
  | PyVal.data _, _ => Except.error (PyError.exc "TypeError" "object is not callable")

/-- The namespace produced by `exec(code, vars)` on a fresh empty `vars`
dict, restricted to the only key the core reads: the binding of `"solve"`
(`none` when the fragment does not define `solve`). -/
structure PyNamespace where
  solve : Option PyVal

/-- A code fragment, abstracted by its text (used in the diagnostic log
message) and the effect of `exec`-ing it in a fresh namespace: either the
resulting namespace or the exception `exec` raises (parse/compile or
top-level runtime failure). -/
structure PyFragment where
  text : String
  exec : Except PyError PyNamespace

/-- A log record emitted through the `logging` collaborator. -/
inductive LogEntry where
  | error : String → LogEntry
  | info : String → LogEntry
deriving DecidableEq

/-- The identity fallback `lambda x: x` used when `solve` is absent. -/
def identityFn : PyData → Except PyError PyData := fun x => Except.ok x

/-- Translation of `run_with_timeout` (utils.py lines 63-72):

    def run_with_timeout(code, input, timeout):
        vars = {}
        try:
            exec(code, vars)
        except Exception as e:
            logging.error(f"The generated code is not valid: {code}")
            raise e
        fn = vars.get("solve", lambda x: x)
        return fn(input)

The returned pair is (outcome, log records emitted by this call): on an
`exec` failure the fragment text is logged at error severity and the same
exception is re-raised; otherwise `solve` (or the identity fallback) is
called on `input`.  Note the `timeout` parameter is never read. -/
def run_with_timeout (code : PyFragment) (input : PyData) (timeout : Int) :
    Except PyError PyData × List LogEntry :=
  match code.exec with
  | Except.error e =>
      (Except.error e, [LogEntry.error ("The generated code is not valid: " ++ code.text)])
  | Except.ok vars =>
      let fn := vars.solve.getD (PyVal.func identityFn)
      (fn.call input, [])

/-- Behaviour of the unit of work `run_with_timeout(code, input, timeout)`
once dispatched on the worker thread: it either terminates after `t` time
units with a result (returned value or raised exception), or never
terminates (e.g. `solve` contains an infinite loop). -/
inductive WorkerBehavior where
  | terminates : Nat → Except PyError PyData → WorkerBehavior
  | diverges : WorkerBehavior

/-- What the caller of `arun` observes, with the wall-clock instant
(relative to the call) at which control returns to it:
`returns v t` — `arun` returns value `v` at time `t`;
`raisesTimeout t` — `arun` raises `TimeoutException("Function call timed out")`
at time `t`; `raisesError e t` — `arun` re-raises the worker exception `e`
at time `t`; `hangs` — `arun` never returns to the caller. -/
inductive ArunOutcome where
  | returns : PyData → Nat → ArunOutcome
  | raisesTimeout : Nat → ArunOutcome
  | raisesError : PyError → Nat → ArunOutcome
  | hangs : ArunOutcome
deriving DecidableEq

/-- Is the outcome the evaluation-error path (`except Exception` re-raise)? -/
def ArunOutcome.isEvalError : ArunOutcome → Bool
  | ArunOutcome.raisesError _ _ => true
  | _ => false

/-- Translation of `arun` (utils.py lines 74-96) over the worker behaviour
`w` of the dispatched `run_with_timeout` call:

    async def arun(code=None, input=None, timeout=60):
        logging.info("Running solution asynchronously...")
        loop = asyncio.get_running_loop()
        t0 = time.perf_counter()
        try:
            with concurrent.futures.ThreadPoolExecutor() as executor:
                future = loop.run_in_executor(executor, run_with_timeout, code, input, timeout)
                result = await asyncio.wait_for(future, timeout=timeout)
            return result
        except asyncio.TimeoutError:
            raise TimeoutException("Function call timed out")
        except Exception as e:
            logging.error(f"Error executing code: {e}")
            raise e
        finally:
            t1 = time.perf_counter()
            logging.info(f"Code solution runtime: {t1 - t0:.2f} seconds")

Branch by branch (CPython semantics of the constructs used; the worker is
modelled as starting immediately after `run_in_executor` submits it):
* worker terminates at `t ≤ timeout` returning a value `v`: `wait_for`
  yields `v` at `t`, `ThreadPoolExecutor.__exit__` (= `shutdown(wait=True)`)
  finds the worker finished, `arun` returns `v` at `t`;
* worker terminates at `t ≤ timeout` raising `e` that is an
  `asyncio.TimeoutError`: `wait_for` re-raises the future's exception, the
  `except asyncio.TimeoutError` clause catches it and raises
  `TimeoutException` at `t`;
* worker terminates at `t ≤ timeout` raising any other exception `e`:
  the `except Exception` clause logs and re-raises `e` at `t`;
* worker terminates at `t > timeout`: `wait_for` raises
  `asyncio.TimeoutError` at `timeout` (the asyncio wrapper future is
  cancelled, but the running `concurrent.futures` work item is not
  interrupted); while the exception propagates out of the `with` block,
  `executor.shutdown(wait=True)` blocks the event loop until the worker
  thread finishes at `t`, after which `TimeoutException` is raised — the
  caller is unblocked only at `t`;
* worker never terminates: the deadline fires, `wait_for` raises at
  `timeout`, and `shutdown(wait=True)` then joins the still-running worker
  thread forever: `arun` never returns. -/
def arun (w : WorkerBehavior) (timeout : Int) : ArunOutcome :=
  match w with
  | WorkerBehavior.diverges => ArunOutcome.hangs
  | WorkerBehavior.terminates t r =>
      if (t : Int) ≤ timeout then
        match r with
        | Except.ok v => ArunOutcome.returns v t
        | Except.error (PyError.timeoutError _) => ArunOutcome.raisesTimeout t
        | Except.error e => ArunOutcome.raisesError e t
      else
        ArunOutcome.raisesTimeout t

/-- Translation of `run` (utils.py lines 98-100): `asyncio.run(arun(...))`
drives the event loop to completion and delivers `arun`'s outcome
unchanged. -/
def run (w : WorkerBehavior) (timeout : Int) : ArunOutcome := arun w timeout

/-- The worker behaviour induced by a fragment: the dispatched call computes
`run_with_timeout code input timeout`; `dur = some t` means that computation
takes `t` time units, `dur = none` means it never terminates (its outcome is
then never produced). -/
def runBehavior (code : PyFragment) (input : PyData) (timeout : Int) :
    Option Nat → WorkerBehavior
  | some t => WorkerBehavior.terminates t (run_with_timeout code input timeout).1
  | Option.none => WorkerBehavior.diverges

/-- Observable events of one `arun` call, in order.  `infoStart` is the
initial `logging.info("Running solution asynchronously...")`; `dispatched`
is `loop.run_in_executor(executor, run_with_timeout, code, input, timeout)`
submitting the unit of work to the fresh executor; `errorLogged` is the
`logging.error(f"Error executing code: {e}")` of the `except Exception`
clause; `runtimeLogged t` is the `finally` clause's
`logging.info(f"Code solution runtime: ...")` with the elapsed time it
measures; `outcome` is control returning to the caller. -/
inductive RunEvent where
  | infoStart : RunEvent
  | dispatched : RunEvent
  | errorLogged : RunEvent
  | runtimeLogged : Nat → RunEvent
  | outcome : ArunOutcome → RunEvent
deriving DecidableEq

/-- Is this event the dispatch of the work onto the worker? -/
def RunEvent.isDispatched : RunEvent → Bool
  | RunEvent.dispatched => true
  | _ => false

/-- Event trace of one `arun` call.  The start log and the dispatch happen
unconditionally before any deadline check (lines 75-88 run straight through:
there is no branch on `timeout` before `wait_for` is awaited).  If the
caller is never unblocked, no further event is observed (the `finally`
clause never runs because the `with` block's exit never returns). -/
def arunEvents (w : WorkerBehavior) (timeout : Int) : List RunEvent :=
  RunEvent.infoStart :: RunEvent.dispatched ::
    (match arun w timeout with
     | ArunOutcome.hangs => []
     | ArunOutcome.returns v t =>
         [RunEvent.runtimeLogged t, RunEvent.outcome (ArunOutcome.returns v t)]
     | ArunOutcome.raisesTimeout t =>
         [RunEvent.runtimeLogged t, RunEvent.outcome (ArunOutcome.raisesTimeout t)]
     | ArunOutcome.raisesError e t =>
         [RunEvent.errorLogged, RunEvent.runtimeLogged t,
          RunEvent.outcome (ArunOutcome.raisesError e t)])

/-- Per-call allocation state of the runner: how many fragment namespaces
(`vars = {}` dicts) and how many `ThreadPoolExecutor`s have been created so
far.  Models that each call to the runner allocates a fresh namespace and a
fresh executor of its own. -/
structure RunnerWorld where
  namespaces : Nat
  executors : Nat

/-- Record of one runner call: its result and the identities of the
namespace and executor it allocated for itself. -/
structure CallRecord where
  result : Except PyError PyData × List LogEntry
  nsId : Nat
  exId : Nat

/-- One runner call with the allocations made explicit: `vars = {}`
(line 64) allocates a fresh dict, `with concurrent.futures.ThreadPoolExecutor()`
(line 79) creates a fresh executor; the call's result is
`run_with_timeout code input timeout`, a function of this call's arguments
alone. -/
def runS (code : PyFragment) (input : PyData) (timeout : Int) (w : RunnerWorld) :
    CallRecord × RunnerWorld :=
  ({ result := run_with_timeout code input timeout
   , nsId := w.namespaces
   , exId := w.executors },
   { namespaces := w.namespaces + 1, executors := w.executors + 1 })

/-- The call behaviour of the fragment `def solve(x: int): return x + 1`. -/
def addOneFn : PyData → Except PyError PyData := fun x =>
  match x with
  | PyData.int n => Except.ok (PyData.int (n + 1))
  | _ => Except.error (PyError.exc "TypeError" "unsupported operand type(s) for +")

/-- The fragment `def solve(x: int): return x + 1`: `exec` succeeds and
binds `solve` to the increment function. -/
def fragAddOne : PyFragment :=
  { text := "def solve(x: int):\n    return x + 1"
  , exec := Except.ok { solve := some (PyVal.func addOneFn) } }

/-- The fragment `x = 5`: `exec` succeeds and does not bind `solve`. -/
def fragNoSolve : PyFragment :=
  { text := "x = 5"
  , exec := Except.ok { solve := Option.none } }

/-- The fragment `solve = 5`: `exec` succeeds and binds `solve` to the
non-callable value `5`. -/
def fragSolveFive : PyFragment :=
  { text := "solve = 5"
  , exec := Except.ok { solve := some (PyVal.data (PyData.int 5)) } }

/-- The fragment `def solve(x)` (a syntax error): `exec` raises
`SyntaxError`. -/
def fragSyntaxError : PyFragment :=
  { text := "def solve(x)"
  , exec := Except.error (PyError.exc "SyntaxError" "expected sign") }

/-- The call behaviour of a `solve` that raises `asyncio.TimeoutError`. -/
def timeoutRaiserFn : PyData → Except PyError PyData := fun _ =>
  Except.error (PyError.timeoutError "fake")

/-- The fragment
`import asyncio\ndef solve(x):\n    raise asyncio.TimeoutError('fake')`:
`exec` succeeds and binds `solve` to a callable that raises an
`asyncio.TimeoutError` instance as soon as it is invoked. -/
def fragRaisesTimeoutErr : PyFragment :=
  { text := "import asyncio\ndef solve(x):\n    raise asyncio.TimeoutError('fake')"
  , exec := Except.ok { solve := some (PyVal.func timeoutRaiserFn) } }

/-- C1: the claim states that whenever execution exceeds the timeout, `Run`
returns TimeoutError at approximately `timeout` elapsed time and the caller
is never blocked past the timeout.  The code violates this: a worker that
never terminates (infinite-loop fragment, timeout 1) leaves the caller
blocked forever — `ThreadPoolExecutor.__exit__` calls `shutdown(wait=True)`,
which joins the still-running worker thread — and a worker terminating at
time 100 with timeout 1 unblocks the caller only at time 100, not at the
deadline. -/
theorem C1_caller_blocked_past_deadline :
    arun WorkerBehavior.diverges 1 = ArunOutcome.hangs ∧
    arun (WorkerBehavior.terminates 100 (Except.ok PyData.none)) 1 =
      ArunOutcome.raisesTimeout 100 :=
  ⟨rfl, rfl⟩

/-- C2: for every fragment whose `exec` succeeds binding `solve` to a
callable `f`, and every input on which `f` returns normally (`f input = ok v`)
within the timeout, the evaluation step yields exactly `v` and `arun`
returns `v` to the caller — the exact value `solve(input)` produces when
called directly. -/
theorem C2_success_exact_value (code : PyFragment) (ns : PyNamespace)
    (f : PyData → Except PyError PyData) (input v : PyData) (t : Nat) (timeout : Int)
    (hexec : code.exec = Except.ok ns) (hsolve : ns.solve = some (PyVal.func f))
    (hf : f input = Except.ok v) (ht : (t : Int) ≤ timeout) :
    (run_with_timeout code input timeout).1 = Except.ok v ∧
    arun (runBehavior code input timeout (some t)) timeout = ArunOutcome.returns v t := by
  have hrun : (run_with_timeout code input timeout).1 = Except.ok v := by
    simp [run_with_timeout, hexec, hsolve, PyVal.call, hf]
  refine ⟨hrun, ?_⟩
  simp [runBehavior, arun, hrun, ht]

/-- C2 witness: fragment `def solve(x): return x + 1`, input 2, timeout 60
gives Success(3). -/
theorem C2_success_exact_value_witness :
    (run_with_timeout fragAddOne (PyData.int 2) 60).1 = Except.ok (PyData.int 3) ∧
    arun (runBehavior fragAddOne (PyData.int 2) 60 (some 0)) 60 =
      ArunOutcome.returns (PyData.int 3) 0 :=
  C2_success_exact_value fragAddOne { solve := some (PyVal.func addOneFn) }
    addOneFn (PyData.int 2) (PyData.int 3) 0 60 rfl rfl rfl (by decide)

/-- C3: the claim states every call yields exactly one terminal outcome,
never zero, and that even when the worker never reports, the runner itself
terminates at the deadline with TimeoutError.  The code violates the
never-zero part: `arun` produces no terminal outcome exactly when the worker
diverges — for a worker that never reports, the runner hangs in
`executor.shutdown(wait=True)` and never terminates, for any timeout. -/
theorem C3_outcome_iff_worker_terminates (w : WorkerBehavior) (timeout : Int) :
    arun w timeout = ArunOutcome.hangs ↔ w = WorkerBehavior.diverges := by
  cases w with
  | diverges => simp [arun]
  | terminates t r =>
      simp only [arun]
      constructor
      · intro h
        by_cases ht : (t : Int) ≤ timeout
        · rw [if_pos ht] at h
          cases r with
          | ok v => exact ArunOutcome.noConfusion h
          | error e => cases e <;> exact ArunOutcome.noConfusion h
        · rw [if_neg ht] at h
          exact ArunOutcome.noConfusion h
      · intro h
        exact WorkerBehavior.noConfusion h

/-- C4: for every fragment whose `exec` succeeds without binding `solve`,
and every input, the identity fallback applies: the evaluation step returns
the input unchanged and `arun` delivers it as a success — the absence of
`solve` is not an error. -/
theorem C4_identity_fallback (code : PyFragment) (ns : PyNamespace)
    (input : PyData) (t : Nat) (timeout : Int)
    (hexec : code.exec = Except.ok ns) (hsolve : ns.solve = Option.none)
    (ht : (t : Int) ≤ timeout) :
    (run_with_timeout code input timeout).1 = Except.ok input ∧
    arun (runBehavior code input timeout (some t)) timeout = ArunOutcome.returns input t := by
  have hrun : (run_with_timeout code input timeout).1 = Except.ok input := by
    simp [run_with_timeout, hexec, hsolve, PyVal.call, identityFn]
  refine ⟨hrun, ?_⟩
  simp [runBehavior, arun, hrun, ht]

/-- C4 witness: fragment `x = 5` (no `solve`), input 7, timeout 60 gives
Success(7). -/
theorem C4_identity_fallback_witness :
    (run_with_timeout fragNoSolve (PyData.int 7) 60).1 = Except.ok (PyData.int 7) ∧
    arun (runBehavior fragNoSolve (PyData.int 7) 60 (some 0)) 60 =
      ArunOutcome.returns (PyData.int 7) 0 :=
  C4_identity_fallback fragNoSolve { solve := Option.none }
    (PyData.int 7) 0 60 rfl rfl (by decide)

/-- C5: for every fragment whose `exec` raises `e`, the call fails with
exactly that exception (one attempt, no retry), and its log consists of the
single error-severity record carrying the original fragment text — emitted
before the exception propagates, and visible only alongside (never instead
of) the unchanged error outcome. -/
theorem C5_load_failure_logged (code : PyFragment) (input : PyData)
    (timeout : Int) (e : PyError) (hexec : code.exec = Except.error e) :
    run_with_timeout code input timeout =
      (Except.error e,
       [LogEntry.error ("The generated code is not valid: " ++ code.text)]) := by
  simp [run_with_timeout, hexec]

/-- C5 witness: the syntax-error fragment `def solve(x)` fails with its
`exec` exception and logs its text at error severity. -/
theorem C5_load_failure_logged_witness :
    run_with_timeout fragSyntaxError (PyData.int 1) 60 =
      (Except.error (PyError.exc "SyntaxError" "expected sign"),
       [LogEntry.error ("The generated code is not valid: " ++ fragSyntaxError.text)]) :=
  C5_load_failure_logged fragSyntaxError (PyData.int 1) 60
    (PyError.exc "SyntaxError" "expected sign") rfl

/-- C6 counterexample: the claim states that a fragment raising before the
deadline always yields an evaluation error, never the timeout signal.  The
fragment that raises `asyncio.TimeoutError('fake')` immediately (time 0,
timeout 60) refutes it: the worker's exception propagates out of
`asyncio.wait_for`, is caught by the `except asyncio.TimeoutError` clause
and is re-reported as `TimeoutException` — the timeout path, not the
evaluation-error path. -/
theorem C6_counterexample :
    arun (runBehavior fragRaisesTimeoutErr PyData.none 60 (some 0)) 60 =
      ArunOutcome.raisesTimeout 0 ∧
    (arun (runBehavior fragRaisesTimeoutErr PyData.none 60 (some 0)) 60).isEvalError
      = false :=
  ⟨rfl, rfl⟩

/-- C6 amended: for every fragment raising, before the deadline, an
exception that is not an `asyncio.TimeoutError` instance, `arun` re-raises
exactly that exception via the evaluation-error path, and that outcome is
distinct from the timeout outcome, so the caller can tell code-is-wrong from
code-is-slow; a fragment raising `asyncio.TimeoutError` itself is the one
exception family reported as a timeout instead. -/
theorem C6_eval_error_distinct (e : PyError) (t : Nat) (timeout : Int)
    (ht : (t : Int) ≤ timeout) (he : e.isTimeoutErr = false) :
    arun (WorkerBehavior.terminates t (Except.error e)) timeout =
      ArunOutcome.raisesError e t ∧
    ArunOutcome.raisesError e t ≠ ArunOutcome.raisesTimeout t := by
  constructor
  · cases e with
    | timeoutError m => simp [PyError.isTimeoutErr] at he
    | exc n m => simp [arun, ht]
  · simp

/-- C6 amended witness: fragment `def solve(x): raise ValueError("bad")`,
raising at time 0 with timeout 60, yields the evaluation error
`ValueError("bad")`, not the timeout signal. -/
theorem C6_eval_error_distinct_witness :
    arun (WorkerBehavior.terminates 0 (Except.error (PyError.exc "ValueError" "bad"))) 60 =
      ArunOutcome.raisesError (PyError.exc "ValueError" "bad") 0 ∧
    ArunOutcome.raisesError (PyError.exc "ValueError" "bad") 0 ≠
      ArunOutcome.raisesTimeout 0 :=
  C6_eval_error_distinct (PyError.exc "ValueError" "bad") 0 60 (by decide) rfl

/-- C7: no mutable state is shared across runner calls.  From any allocation
state, two successive calls each compute a result that is exactly the pure
function of their own (fragment, input, timeout) — unaffected by the other
call or by prior state — and each allocates a fresh namespace (`vars = {}`)
and a fresh `ThreadPoolExecutor` of its own, distinct from the other
call's. -/
theorem C7_isolation (c1 c2 : PyFragment) (i1 i2 : PyData) (t1 t2 : Int)
    (w : RunnerWorld) :
    (runS c1 i1 t1 w).1.result = run_with_timeout c1 i1 t1 ∧
    (runS c2 i2 t2 (runS c1 i1 t1 w).2).1.result = run_with_timeout c2 i2 t2 ∧
    (runS c2 i2 t2 (runS c1 i1 t1 w).2).1.nsId ≠ (runS c1 i1 t1 w).1.nsId ∧
    (runS c2 i2 t2 (runS c1 i1 t1 w).2).1.exId ≠ (runS c1 i1 t1 w).1.exId := by
  refine ⟨rfl, rfl, ?_, ?_⟩ <;> simp [runS]

/-- C8: for every worker behaviour and every timeout — including
`timeout ≤ 0` — the call logs its start and dispatches the work onto the
worker exactly once before any deadline check (there is no synchronous
fast-fail path), and with `timeout ≤ 0` a worker needing positive time
expires at the deadline check, after the dispatch. -/
theorem C8_dispatch_before_deadline (w : WorkerBehavior) (timeout : Int)
    (t : Nat) (r : Except PyError PyData) (h : timeout ≤ 0) :
    (arunEvents w timeout).take 2 = [RunEvent.infoStart, RunEvent.dispatched] ∧
    (arunEvents w timeout).countP RunEvent.isDispatched = 1 ∧
    arun (WorkerBehavior.terminates (t + 1) r) timeout =
      ArunOutcome.raisesTimeout (t + 1) := by
  refine ⟨?_, ?_, ?_⟩
  · cases harun : arun w timeout <;> simp [arunEvents, harun]
  · cases harun : arun w timeout <;>
      simp [arunEvents, harun, List.countP_cons, RunEvent.isDispatched]
  · have hne : ¬(((t + 1 : Nat) : Int) ≤ timeout) := by omega
    simp only [arun, if_neg hne]

/-- C8 witness: with timeout 0 and a worker needing 1 time unit, the trace
still starts with the dispatch, dispatch happens exactly once, and the call
expires at the deadline check. -/
theorem C8_dispatch_before_deadline_witness :
    (arunEvents (WorkerBehavior.terminates 1 (Except.ok PyData.none)) 0).take 2 =
      [RunEvent.infoStart, RunEvent.dispatched] ∧
    (arunEvents (WorkerBehavior.terminates 1 (Except.ok PyData.none)) 0).countP
      RunEvent.isDispatched = 1 ∧
    arun (WorkerBehavior.terminates (0 + 1) (Except.ok PyData.none)) 0 =
      ArunOutcome.raisesTimeout (0 + 1) :=
  C8_dispatch_before_deadline (WorkerBehavior.terminates 1 (Except.ok PyData.none)) 0
    0 (Except.ok PyData.none) (by decide)

/-- C9: the evaluation step ignores its timeout parameter — for every
fragment, input and any two timeout values, `run_with_timeout` produces
identical results (same outcome, same log); the deadline is enforced only by
the runner's wait. -/
theorem C9_evaluator_ignores_timeout (code : PyFragment) (input : PyData)
    (t1 t2 : Int) :
    run_with_timeout code input t1 = run_with_timeout code input t2 := rfl

/-- C10: the identity fallback applies only when `solve` is absent: if the
fragment binds `solve` to a non-callable value, that value is invoked with
the input, so the call raises `TypeError` — an evaluation error, not
Success(input). -/
theorem C10_noncallable_solve (code : PyFragment) (ns : PyNamespace)
    (v : PyVal) (input : PyData) (timeout : Int)
    (hexec : code.exec = Except.ok ns) (hsolve : ns.solve = some v)
    (hnc : v.isCallable = false) :
    (run_with_timeout code input timeout).1 =
      Except.error (PyError.exc "TypeError" "object is not callable") ∧
    (run_with_timeout code input timeout).1 ≠ Except.ok input := by
  have hrun : (run_with_timeout code input timeout).1 =
      Except.error (PyError.exc "TypeError" "object is not callable") := by
    cases v with
    | func f => simp [PyVal.isCallable] at hnc
    | data d => simp [run_with_timeout, hexec, hsolve, PyVal.call]
  exact ⟨hrun, by simp [hrun]⟩

/-- C10 witness: fragment `solve = 5`, input 7: the attempted call of `5`
raises `TypeError`, not Success(7). -/
theorem C10_noncallable_solve_witness :
    (run_with_timeout fragSolveFive (PyData.int 7) 60).1 =
      Except.error (PyError.exc "TypeError" "object is not callable") ∧
    (run_with_timeout fragSolveFive (PyData.int 7) 60).1 ≠ Except.ok (PyData.int 7) :=
  C10_noncallable_solve fragSolveFive { solve := some (PyVal.data (PyData.int 5)) }
    (PyVal.data (PyData.int 5)) (PyData.int 7) 60 rfl rfl rfl
